import Mathlib

/-!
Verification of the TUI coordination core of grin-miner
(`src/bin/tui/ui.rs`): the `UI` handle, the update-relay listener
thread, and the `Controller` polling loop.

The embedding is shallow: channels become lists of messages, the
relay loop becomes a recursive function from the received message
list to the list of callbacks enqueued on the cursive callback sink,
and the controller loop becomes a fuel-indexed step function over
discrete time in milliseconds (one iteration per 100 ms sleep, as in
the source). `Arc<RwLock<Stats>>` is modelled by its allocation
identity: cloning an `Arc` yields a handle to the same allocation.
-/

/-- A shared statistics handle, `Arc<RwLock<stats::Stats>>` in the
source, modelled by the identity of the underlying allocation. -/
structure ArcStats where
  allocId : Nat
deriving DecidableEq, Repr

/-- Model of `Arc::clone`: it produces a handle to the same allocation. -/
def ArcStats.clone (a : ArcStats) : ArcStats := a

/-- The `UIMessage` enum of `ui.rs`: `UpdateStatus(Arc<RwLock<Stats>>)`
or `Quit`. -/
inductive UIMessage where
  | UpdateStatus (snap : ArcStats)
  | Quit
deriving DecidableEq, Repr

/-- A unit of work enqueued on the cursive deferred-callback sink
(`cb_sink.send(Box::new(...))`): either the display-update closure
built in the `UpdateStatus` arm (capturing the snapshot handle) or
the termination closure (`s.quit()`) built in the `Quit` arm. -/
inductive SinkEvent where
  | updateCb (snap : ArcStats)
  | terminateCb
deriving DecidableEq, Repr

/-- The callback sent to the sink for a message, as built by the two
match arms of the listener thread. -/
def msgCb : UIMessage → SinkEvent
  | .UpdateStatus s => .updateCb s
  | .Quit => .terminateCb

/-- The listener ("Update Relay") thread of `UI::new`, lines 104-121:
`while let Ok(message) = ui_rx.recv()` over the messages delivered on
the `UIMessage` channel (in send order); on `UpdateStatus` it sends
one update callback to the sink and continues, on `Quit` it sends the
termination callback and `break`s, so the remaining messages are
never received. The result is the list of callbacks enqueued on the
sink, in order. -/
def relayRun : List UIMessage → List SinkEvent
  | [] => []
  | .UpdateStatus s :: rest => .updateCb s :: relayRun rest
  | .Quit :: _ => [.terminateCb]

/-- The arguments with which the display-update closure of lines
108-111 invokes the two view-update routines when it later runs on
the cursive thread: `mining::TUIMiningView::update(s, update.clone())`
then `version::TUIVersionView::update(s, update.clone())`. -/
structure UpdateCallbackCalls where
  miningArg : ArcStats
  versionArg : ArcStats
deriving DecidableEq, Repr

/-- Body of the update callback built in the `UpdateStatus` arm: each
view receives its own clone of the captured snapshot handle. -/
def updateCallbackBody (update : ArcStats) : UpdateCallbackCalls :=
  { miningArg := update.clone, versionArg := update.clone }

/-- Outcome of executing a statement that may panic. -/
inductive PanicOr (α : Type) where
  | panicked
  | ok (v : α)
deriving DecidableEq, Repr

/-- Model of `mpsc::Sender::send`: it returns `Err(SendError(..))` exactly when
the receiving end has been dropped, `Ok(())` otherwise. The error
payload is irrelevant here and modelled as `Unit`. -/
def mpscSend (receiverAlive : Bool) : Except Unit Unit :=
  if receiverAlive then .ok () else .error ()

/-- Rust `.unwrap()` on a `Result`: panics on `Err`. -/
def unwrapResult : Except Unit Unit → PanicOr Unit
  | .ok v => .ok v
  | .error _ => .panicked

/-- Rust `let _ = expr;`: the result, `Ok` or `Err`, is discarded and
execution continues normally. -/
def discardResult : Except Unit Unit → PanicOr Unit
  | _ => .ok ()

/-- The `'q'` keybinding handler registered in `UI::new`, lines
96-100: `controller_tx_clone.send(ControllerMessage::Shutdown).unwrap()`.
Input: whether the Controller's receiver is still alive. -/
def keybindingShutdownSend (controllerRxAlive : Bool) : PanicOr Unit :=
  unwrapResult (mpscSend controllerRxAlive)

/-- The `Quit` send in `UI::stop`, line 133:
`let _ = self.ui_tx.send(UIMessage::Quit);`. -/
def stopQuitSend (uiRxAlive : Bool) : PanicOr Unit :=
  discardResult (mpscSend uiRxAlive)

/-- The `Quit` send in `Controller::run`, line 171:
`let _ = self.ui.ui_tx.send(UIMessage::Quit);`. -/
def runQuitSend (uiRxAlive : Bool) : PanicOr Unit :=
  discardResult (mpscSend uiRxAlive)

/-- The `UpdateStatus` send in `Controller::run`, line 181:
`let _ = self.ui.ui_tx.send(UIMessage::UpdateStatus(stats.clone()));`. -/
def runUpdateSend (uiRxAlive : Bool) : PanicOr Unit :=
  discardResult (mpscSend uiRxAlive)

/-- The sink send in the `UpdateStatus` arm of the listener, line 108:
`let _ = cb_sink.send(Box::new(...));`. -/
def relayUpdateSinkSend (sinkAlive : Bool) : PanicOr Unit :=
  discardResult (mpscSend sinkAlive)

/-- The sink send in the `Quit` arm of the listener, line 114:
`let _ = cb_sink.send(Box::new(...));`. -/
def relayQuitSinkSend (sinkAlive : Bool) : PanicOr Unit :=
  discardResult (mpscSend sinkAlive)

/-- The `UI` struct state relevant to shutdown: `handle:
Option<JoinHandle<()>>` (the `ui_tx` sender is always present and
carried separately by the send-site models above). -/
structure UIModel where
  handle : Option Unit
deriving DecidableEq, Repr

/-- Effects of one `UI::stop` call: a `Quit` send is attempted, and
the thread is joined when the handle was still held. -/
structure StopEffects where
  quitSendAttempted : Bool
  joined : Bool
deriving DecidableEq, Repr

/-- Model of `UI::stop`, lines 132-138: best-effort `Quit` send, then
`if let Some(handle) = self.handle.take() { let _ = handle.join(); }`. -/
def UI.stop (u : UIModel) : UIModel × StopEffects :=
  match u.handle with
  | some _ => ({ handle := none }, { quitSendAttempted := true, joined := true })
  | none => ({ handle := none }, { quitSendAttempted := true, joined := false })

/-- Iterating `n` successive `UI::stop` calls on the same `UI` value; returns
the final state and the total number of joins performed. -/
def stopN : Nat → UIModel → UIModel × Nat
  | 0, u => (u, 0)
  | n + 1, u =>
    let p := UI.stop u
    let q := stopN n p.1
    (q.1, (if p.2.joined then 1 else 0) + q.2)

/-- The model of `UI::new` output relevant to `Controller::new`: the
struct fields `ui_tx` (send end of the freshly created `UIMessage`
channel) and `handle = Some(spawned thread)`, plus the channel on
which the registered keybinding handler sends `Shutdown` (the
`controller_tx` argument). Channels are named by identifiers. -/
structure UIInit where
  uiTxChannel : Nat
  handle : Option Unit
  keybindingTargetChannel : Nat
deriving DecidableEq, Repr

/-- Model of `UI::new(controller_tx)`, lines 61-130, restricted to the state it
constructs: a fresh `UIMessage` channel whose send end is stored in
`ui_tx`, a spawned display thread whose join handle is stored, and a
`'q'` callback bound to `controller_tx`. -/
def UI.new (controllerTxChannel freshUiChannel : Nat) : UIInit :=
  { uiTxChannel := freshUiChannel
    handle := some ()
    keybindingTargetChannel := controllerTxChannel }

/-- The `Controller` struct: the receive end of the shutdown channel
and the `UI`. -/
structure ControllerModel where
  rxChannel : Nat
  ui : UIInit
deriving DecidableEq, Repr

/-- Model of `Controller::new`, lines 156-162: it creates a `ControllerMessage`
channel `(tx, rx)` and returns
`Ok(Controller { rx, ui: UI::new(tx) })`. The fresh channel
identifiers are supplied as arguments. -/
def Controller.new (freshShutdownChannel freshUiChannel : Nat) :
    Except String ControllerModel :=
  .ok { rxChannel := freshShutdownChannel
        ui := UI.new freshShutdownChannel freshUiChannel }

/-- The constant `stat_update_interval` in `Controller::run`, line 165 (seconds). -/
def statUpdateInterval : Nat := 1

/-- The status-push step of one `Controller::run` iteration, lines
180-183: at wall-clock time `tMs` milliseconds (so
`time::get_time().sec = tMs / 1000`) with deadline `next` seconds, if
`sec > next` then send `UpdateStatus(stats.clone())` and set the
deadline to `sec + stat_update_interval`; otherwise send nothing.
Returns the messages sent and the new deadline. -/
def controllerStep (stats : ArcStats) (tMs next : Nat) :
    List UIMessage × Nat :=
  if tMs / 1000 > next then
    ([.UpdateStatus stats.clone], tMs / 1000 + statUpdateInterval)
  else
    ([], next)

/-- Whether `self.rx.try_recv()` yields the `Shutdown` message at time
`tMs`: the message schedule gives the time it was sent (it is first
observable at the first iteration at or after that time). -/
def shutdownReady (shutdownAt : Option Nat) (tMs : Nat) : Bool :=
  match shutdownAt with
  | some a => a ≤ tMs
  | none => false

/-- Result of (a prefix of) `Controller::run`: the timestamped
messages sent on `ui_tx` in order, whether the function returned,
the `ui.handle` field afterwards, and whether the display thread was
joined. -/
structure RunResult where
  sent : List (Nat × UIMessage)
  returned : Bool
  handle : Option Unit
  joined : Bool
deriving DecidableEq, Repr

/-- The `loop` of `Controller::run`, lines 167-186, over discrete
time: each iteration first polls the shutdown channel (on `Shutdown`:
send `Quit`, take and join the handle if held, return), then runs the
status-push step, then sleeps 100 ms. `fuel` bounds the number of
iterations; exhausting it leaves the loop still running. -/
def controllerLoop (shutdownAt : Option Nat) (stats : ArcStats) :
    Nat → Nat → Nat → Option Unit → List (Nat × UIMessage) → RunResult
  | 0, _, _, h, acc =>
    { sent := acc, returned := false, handle := h, joined := false }
  | fuel + 1, tMs, next, h, acc =>
    if shutdownReady shutdownAt tMs then
      { sent := acc ++ [(tMs, .Quit)], returned := true, handle := none,
        joined := h.isSome }
    else
      let step := controllerStep stats tMs next
      controllerLoop shutdownAt stats fuel (tMs + 100) step.2 h
        (acc ++ step.1.map (fun m => (tMs, m)))

/-- Model of `Controller::run`, lines 164-187, started at wall-clock time `t0`
milliseconds: `next_stat_update = time::get_time().sec +
stat_update_interval`, then the loop, with the display-thread join
handle initially held. -/
def controllerRun (shutdownAt : Option Nat) (stats : ArcStats)
    (t0 fuel : Nat) : RunResult :=
  controllerLoop shutdownAt stats fuel t0
    (t0 / 1000 + statUpdateInterval) (some ()) []

/-- Number of `UpdateStatus` messages sent no later than time `tMs`. -/
def countUpdatesBy (r : RunResult) (tMs : Nat) : Nat :=
  (r.sent.filter (fun p =>
    decide (p.1 ≤ tMs) && match p.2 with
      | .UpdateStatus _ => true
      | .Quit => false)).length

/-- A message is an `UpdateStatus`. -/
def UIMessage.isUpdate : UIMessage → Bool
  | .UpdateStatus _ => true
  | .Quit => false

/-- Helper: once the join handle is empty, further `stop` calls never
join. -/
theorem stopN_handle_none (n : Nat) (u : UIModel) (h : u.handle = none) :
    (stopN n u).2 = 0 := by
  induction n generalizing u with
  | zero => rfl
  | succ n ih =>
    cases u with
    | mk hd =>
      cases hd with
      | none => simp [stopN, UI.stop, ih]
      | some v => simp at h

/-- C1: once the relay observes a `Quit`, what it has forwarded to the
callback sink is exactly what it would have forwarded had the channel
ended at that `Quit` — messages sent after the `Quit` (pending or
later) are never forwarded — and, when the `Quit` is the first one,
the termination callback is the final event enqueued: the relay loop
exits immediately after it. -/
theorem relay_quit_stops_forwarding (pre post : List UIMessage) :
    relayRun (pre ++ UIMessage.Quit :: post) = relayRun (pre ++ [UIMessage.Quit]) ∧
    (UIMessage.Quit ∉ pre →
      relayRun (pre ++ UIMessage.Quit :: post) =
        relayRun pre ++ [SinkEvent.terminateCb]) := by
  induction pre with
  | nil => exact ⟨rfl, fun _ => rfl⟩
  | cons m rest ih =>
    cases m with
    | UpdateStatus s =>
      refine ⟨?_, ?_⟩
      · simpa [relayRun] using ih.1
      · intro h
        have h' : UIMessage.Quit ∉ rest := fun hh => h (List.mem_cons_of_mem _ hh)
        simp [relayRun, ih.2 h']
    | Quit =>
      exact ⟨rfl, fun h => absurd (List.mem_cons_self _ _) h⟩

/-- Witness for `relay_quit_stops_forwarding` at a concrete channel
history. -/
theorem relay_quit_stops_forwarding_witness :
    UIMessage.Quit ∉ [UIMessage.UpdateStatus ⟨1⟩] ∧
    relayRun ([UIMessage.UpdateStatus ⟨1⟩] ++
        UIMessage.Quit :: [UIMessage.UpdateStatus ⟨2⟩]) =
      relayRun [UIMessage.UpdateStatus ⟨1⟩] ++ [SinkEvent.terminateCb] :=
  ⟨by decide,
   (relay_quit_stops_forwarding [UIMessage.UpdateStatus ⟨1⟩]
      [UIMessage.UpdateStatus ⟨2⟩]).2 (by decide)⟩

/-- C5: for any sequence of `UpdateStatus` messages sent before a
`Quit`, the relay forwards the update callback of each of them, in
send order, and only then the termination callback. -/
theorem relay_preserves_update_order (pre post : List UIMessage)
    (h : ∀ m ∈ pre, m.isUpdate = true) :
    relayRun (pre ++ UIMessage.Quit :: post) =
      pre.map msgCb ++ [SinkEvent.terminateCb] := by
  induction pre with
  | nil => rfl
  | cons m rest ih =>
    have hm := h m (List.mem_cons_self _ _)
    cases m with
    | UpdateStatus s =>
      have h' : ∀ m ∈ rest, m.isUpdate = true :=
        fun m hmm => h m (List.mem_cons_of_mem _ hmm)
      simp [relayRun, msgCb, ih h']
    | Quit => simp [UIMessage.isUpdate] at hm

/-- Witness for `relay_preserves_update_order` at a concrete channel
history. -/
theorem relay_preserves_update_order_witness :
    (∀ m ∈ [UIMessage.UpdateStatus ⟨1⟩, UIMessage.UpdateStatus ⟨2⟩],
        m.isUpdate = true) ∧
    relayRun ([UIMessage.UpdateStatus ⟨1⟩, UIMessage.UpdateStatus ⟨2⟩] ++
        UIMessage.Quit :: [UIMessage.UpdateStatus ⟨3⟩]) =
      [UIMessage.UpdateStatus ⟨1⟩, UIMessage.UpdateStatus ⟨2⟩].map msgCb ++
        [SinkEvent.terminateCb] :=
  ⟨by decide, relay_preserves_update_order _ _ (by decide)⟩

/-- C10: processing one `UpdateStatus` message enqueues exactly one
callback on the sink, and that callback hands the mining view and the
version view clones of the very same snapshot handle, so both views
observe the same snapshot. -/
theorem update_message_single_callback_consistent_views
    (a : ArcStats) (rest : List UIMessage) :
    relayRun (UIMessage.UpdateStatus a :: rest) =
      SinkEvent.updateCb a :: relayRun rest ∧
    (relayRun (UIMessage.UpdateStatus a :: rest)).length =
      (relayRun rest).length + 1 ∧
    (updateCallbackBody a).miningArg = (updateCallbackBody a).versionArg ∧
    (updateCallbackBody a).miningArg = a := by
  refine ⟨rfl, ?_, rfl, rfl⟩
  simp [relayRun]

/-- C2 counterexample: the keybinding handler's `Shutdown` send uses
`.unwrap()`, so when the Controller's receiver has been dropped it
panics instead of silently discarding the channel-closed error. -/
theorem keybinding_send_panics_on_closed_channel :
    keybindingShutdownSend false = PanicOr.panicked ∧
    keybindingShutdownSend false ≠ PanicOr.ok () := by decide

/-- C2 amended: every `let _ = ... send(...)` site (the `Quit` send in
`UI::stop`, the `Quit` and `UpdateStatus` sends in `Controller::run`,
and both callback-sink sends in the relay) silently discards a
channel-closed error; the one exception is the keybinding handler's
`Shutdown` send, which unwraps and panics when the Controller's
receiver has been dropped. -/
theorem send_sites_error_behavior (alive : Bool) :
    stopQuitSend alive = PanicOr.ok () ∧
    runQuitSend alive = PanicOr.ok () ∧
    runUpdateSend alive = PanicOr.ok () ∧
    relayUpdateSinkSend alive = PanicOr.ok () ∧
    relayQuitSinkSend alive = PanicOr.ok () ∧
    keybindingShutdownSend true = PanicOr.ok () ∧
    keybindingShutdownSend false = PanicOr.panicked := by
  cases alive <;> decide

/-- C4: `UI::stop` is idempotent: the first call empties the join
handle; a second call reaches the same end state as a single call and
performs no join; across any number of successive calls the display
thread is joined at most once; and the repeated `Quit` send never
panics, whether or not the relay is still alive. -/
theorem ui_stop_idempotent (u : UIModel) :
    (UI.stop u).1.handle = none ∧
    UI.stop (UI.stop u).1 =
      ((UI.stop u).1, { quitSendAttempted := true, joined := false }) ∧
    (∀ n, (stopN n u).2 ≤ 1) ∧
    (∀ b, stopQuitSend b = PanicOr.ok ()) := by
  refine ⟨?_, ?_, ?_, ?_⟩
  · cases u with | mk hd => cases hd <;> rfl
  · cases u with | mk hd => cases hd <;> rfl
  · intro n
    cases u with
    | mk hd =>
      cases hd with
      | none => simp [stopN_handle_none n ⟨none⟩ rfl]
      | some v =>
        cases n with
        | zero => exact Nat.zero_le 1
        | succ n =>
          simp [stopN, UI.stop, stopN_handle_none n ⟨none⟩ rfl]
  · intro b; cases b <;> rfl

/-- C9: `Controller::new` never returns an `Err`: it always returns
`Ok` of a Controller holding the receive end of the freshly created
shutdown channel, whose send end both backs the UI's registered
keybinding handler, with the UI's own channel fresh and its join
handle held. -/
theorem controller_new_always_ok (f g : Nat) :
    Controller.new f g =
      Except.ok { rxChannel := f, ui := UI.new f g } ∧
    (UI.new f g).keybindingTargetChannel = f ∧
    (UI.new f g).uiTxChannel = g ∧
    (UI.new f g).handle = some () :=
  ⟨rfl, rfl, rfl, rfl⟩

/-- C3 counterexample: with the last push (or start) at second 0 the
deadline is `0 + stat_update_interval = 1`; at `t = 1000` ms the
elapsed time is exactly the 1-second interval, so the claim requires
a send, but the code's strict comparison `sec > next_stat_update`
sends nothing. -/
theorem controller_step_at_exact_interval_no_send :
    1000 / 1000 ≥ 0 + statUpdateInterval ∧
    (controllerStep ⟨0⟩ 1000 (0 + statUpdateInterval)).1 = [] := by decide

/-- C3 amended: in an iteration of the running controller the
`UpdateStatus(current snapshot)` send happens exactly when the current
whole-second clock STRICTLY exceeds the deadline (elapsed time
strictly greater than the interval, at second granularity), and when
it fires the deadline is reset to now plus the interval. -/
theorem controller_step_sends_iff_strictly_late
    (stats : ArcStats) (tMs next : Nat) :
    ((controllerStep stats tMs next).1 = [UIMessage.UpdateStatus stats] ↔
      tMs / 1000 > next) ∧
    ((controllerStep stats tMs next).1 = [] ↔ ¬ tMs / 1000 > next) ∧
    (tMs / 1000 > next →
      (controllerStep stats tMs next).2 = tMs / 1000 + statUpdateInterval) := by
  by_cases h : tMs / 1000 > next <;> simp [controllerStep, ArcStats.clone, h]

/-- Witness for `controller_step_sends_iff_strictly_late` at a
concrete iteration. -/
theorem controller_step_sends_iff_strictly_late_witness :
    (2000 / 1000 > 1) ∧
    (controllerStep ⟨0⟩ 2000 1).2 = 2000 / 1000 + statUpdateInterval :=
  ⟨by decide, (controller_step_sends_iff_strictly_late ⟨0⟩ 2000 1).2.2 (by decide)⟩

/-- Helper: whenever the controller loop (with the join handle held)
returns, its output ends with a single `Quit` preceded only by
`UpdateStatus` messages, the handle has been taken, and the display
thread joined. -/
theorem controllerLoop_shutdown_shape (sd : Option Nat) (stats : ArcStats)
    (fuel : Nat) :
    ∀ (tMs next : Nat) (acc : List (Nat × UIMessage)),
      (controllerLoop sd stats fuel tMs next (some ()) acc).returned = true →
      ∃ tQ mid,
        (controllerLoop sd stats fuel tMs next (some ()) acc).sent =
          acc ++ mid ++ [(tQ, UIMessage.Quit)] ∧
        (∀ p ∈ mid, ∃ s, p.2 = UIMessage.UpdateStatus s) ∧
        (controllerLoop sd stats fuel tMs next (some ()) acc).handle = none ∧
        (controllerLoop sd stats fuel tMs next (some ()) acc).joined = true := by
  induction fuel with
  | zero => intro tMs next acc h; simp [controllerLoop] at h
  | succ fuel ih =>
    intro tMs next acc h
    by_cases hr : shutdownReady sd tMs = true
    · refine ⟨tMs, [], ?_, by simp, ?_, ?_⟩ <;> simp [controllerLoop, hr]
    · have hr' : shutdownReady sd tMs = false := by
        cases hq : shutdownReady sd tMs
        · rfl
        · exact absurd hq hr
      have hunf : controllerLoop sd stats (fuel + 1) tMs next (some ()) acc =
          controllerLoop sd stats fuel (tMs + 100)
            (controllerStep stats tMs next).2 (some ())
            (acc ++ (controllerStep stats tMs next).1.map (fun m => (tMs, m))) := by
        simp [controllerLoop, hr']
      rw [hunf] at h ⊢
      obtain ⟨tQ, mid, hsent, hmid, hh, hj⟩ := ih _ _ _ h
      refine ⟨tQ, (controllerStep stats tMs next).1.map (fun m => (tMs, m)) ++ mid,
        ?_, ?_, hh, hj⟩
      · rw [hsent]; simp
      · intro p hp
        rcases List.mem_append.mp hp with hp | hp
        · rcases List.mem_map.mp hp with ⟨m, hm, rfl⟩
          by_cases hs : tMs / 1000 > next
          · simp [controllerStep, hs] at hm
            exact ⟨stats.clone, by simp [hm]⟩
          · simp [controllerStep, hs] at hm
        · exact hmid p hp

/-- C6: whenever `Controller::run` observes the `Shutdown` message and
returns, it has sent exactly one `Quit`, as its final message (every
earlier message is an `UpdateStatus`, so nothing follows the `Quit`),
has taken the join handle (now empty), and has joined the display
thread, which was still held. -/
theorem controller_shutdown_behavior (a : Nat) (stats : ArcStats)
    (t0 fuel : Nat)
    (h : (controllerRun (some a) stats t0 fuel).returned = true) :
    ∃ tQ mid,
      (controllerRun (some a) stats t0 fuel).sent =
        mid ++ [(tQ, UIMessage.Quit)] ∧
      (∀ p ∈ mid, ∃ s, p.2 = UIMessage.UpdateStatus s) ∧
      (controllerRun (some a) stats t0 fuel).handle = none ∧
      (controllerRun (some a) stats t0 fuel).joined = true := by
  obtain ⟨tQ, mid, hs, hm, hh, hj⟩ :=
    controllerLoop_shutdown_shape (some a) stats fuel t0
      (t0 / 1000 + statUpdateInterval) [] h
  exact ⟨tQ, mid, by simpa using hs, hm, hh, hj⟩

/-- Witness for `controller_shutdown_behavior` at a concrete run. -/
theorem controller_shutdown_behavior_witness :
    (controllerRun (some 0) ⟨0⟩ 0 1).returned = true ∧
    ∃ tQ mid,
      (controllerRun (some 0) ⟨0⟩ 0 1).sent = mid ++ [(tQ, UIMessage.Quit)] ∧
      (∀ p ∈ mid, ∃ s, p.2 = UIMessage.UpdateStatus s) ∧
      (controllerRun (some 0) ⟨0⟩ 0 1).handle = none ∧
      (controllerRun (some 0) ⟨0⟩ 0 1).joined = true :=
  ⟨rfl, controller_shutdown_behavior 0 ⟨0⟩ 0 1 rfl⟩

/-- C7 counterexample: starting at t = 0 with no shutdown request,
the code has sent ZERO `UpdateStatus` messages by t = 1.1 s (the
claim requires exactly one by 1.0 s ± 0.1 s) and only ONE by
t = 2.1 s (the claim requires exactly two by 2.0 s ± 0.1 s): the
strict whole-second comparison makes the first send happen at
t = 2.0 s. -/
theorem controller_cadence_counterexample :
    countUpdatesBy (controllerRun none ⟨0⟩ 0 45) 900 = 0 ∧
    countUpdatesBy (controllerRun none ⟨0⟩ 0 45) 1100 = 0 ∧
    countUpdatesBy (controllerRun none ⟨0⟩ 0 45) 1900 = 0 ∧
    countUpdatesBy (controllerRun none ⟨0⟩ 0 45) 2100 = 1 := by decide

/-- C7 amended: with interval 1 s, a start at t = 0 and no shutdown
request, the code sends no `UpdateStatus` in the first two seconds;
the first is sent at t = 2.0 s and the second at t = 4.0 s (a
2-second effective cadence). -/
theorem controller_update_cadence_two_seconds :
    countUpdatesBy (controllerRun none ⟨0⟩ 0 45) 1999 = 0 ∧
    countUpdatesBy (controllerRun none ⟨0⟩ 0 45) 2000 = 1 ∧
    countUpdatesBy (controllerRun none ⟨0⟩ 0 45) 3999 = 1 ∧
    countUpdatesBy (controllerRun none ⟨0⟩ 0 45) 4000 = 2 := by decide

/-- C8: a `Shutdown` delivered at t = 0.3 s, before the first
scheduled update, makes `run()` return having sent zero
`UpdateStatus` messages and exactly one `Quit`. -/
theorem controller_early_shutdown_no_updates :
    (controllerRun (some 300) ⟨0⟩ 0 10).returned = true ∧
    (controllerRun (some 300) ⟨0⟩ 0 10).sent = [(300, UIMessage.Quit)] := by
  decide
